import Mathlib

/-!
Verification of the wb-rest-order service (src/src/main.rs).

The development shallowly embeds the core of the program:
* the `Order` data model with its nested `Delivery`, `Payment`, `Item` value
  objects (main.rs lines 19-87);
* JSON serialization (serde derive) and deserialization (serde derive plus the
  custom `deserialize_offset_datetime` which requires RFC3339, lines 61-68);
* the `time` crate semantics the program links against: the RFC3339 parser used
  by `deserialize_offset_datetime`, and the default human-readable serde
  format that `#[derive(Serialize)]` uses for `OffsetDateTime`
  ("[year]-[month]-[day] [hour]:[minute]:[second].[subsecond]
  [offset_hour]:[offset_minute]:[offset_second]");
* the database schema created by `init_orders_shema` (lines 114-138), the
  insert performed by `save_order_to_db` (lines 140-172), and the Postgres
  bind-parameter types of that insert;
* the request handlers `handle_order` (lines 175-191) and `show_order`
  (lines 193-201) with the single-slot cache (`Arc<Mutex<Option<Order>>>`);
* a small interleaving machine for two concurrent POST /order handlers,
  reflecting that the mutex guard acquired on line 180 is held until the
  handler returns (it is alive across the `save_order_to_db(...).await`).

Rust machine integers are modelled as `Nat` with explicit range bounds where
the Rust type system would impose them (`u32 < 2^32`, `u64 < 2^64`); the
`order.sm_id as i32` cast in `save_order_to_db` is modelled as the wrapping
conversion it is.
-/

namespace WbRestOrder

/-! ## Data model (main.rs lines 19-87) -/

structure Delivery where
  name : String
  phone : String
  zip : String
  city : String
  address : String
  region : String
  email : String
deriving DecidableEq, Repr

structure Payment where
  transaction : String
  request_id : String
  currency : String
  provider : String
  amount : Nat
  payment_dt : Nat
  bank : String
  delivery_cost : Nat
  goods_total : Nat
  custom_fee : Nat
deriving DecidableEq, Repr

structure Item where
  chrt_id : Nat
  track_number : String
  price : Nat
  rid : String
  name : String
  sale : Nat
  size : String
  total_price : Nat
  nm_id : Nat
  brand : String
  status : Nat
deriving DecidableEq, Repr

/-- Model of `time::OffsetDateTime` restricted to the values this program can
construct: the decoder only admits RFC3339 strings, whose years are exactly
four digits, so `year : Nat` with `year ≤ 9999`. The UTC offset is stored in
whole seconds, as in the `time` crate. -/
structure OffsetDateTime where
  year : Nat
  month : Nat
  day : Nat
  hour : Nat
  minute : Nat
  second : Nat
  nanosecond : Nat
  offset : Int
deriving DecidableEq, Repr

structure Order where
  order_uid : String
  track_number : String
  entry : String
  delivery : Delivery
  payment : Payment
  items : List Item
  locale : String
  internal_signature : String
  customer_id : String
  delivery_service : String
  shardkey : String
  sm_id : Nat
  date_created : OffsetDateTime
  oof_shard : String
deriving DecidableEq, Repr

/-! ## JSON values

The program only ever produces and consumes integral JSON numbers (all numeric
fields are Rust unsigned integers), so `num` carries an `Int`. -/

inductive Json where
  | null
  | bool (b : Bool)
  | num (n : Int)
  | str (s : String)
  | arr (elems : List Json)
  | obj (fields : List (String × Json))
deriving Repr

/-! ## RFC3339 parsing (`time::format_description::well_known::Rfc3339`)

`deserialize_offset_datetime` (main.rs lines 61-68) feeds the raw string to
`OffsetDateTime::parse(&s, &Rfc3339)`. The grammar: `full-date "T" full-time`
with a four-digit year, `T`/`t` as the mandatory separator, an optional
fractional-second part of at least one digit, and an offset that is `Z`/`z`
or `sign hh:mm`; the whole input must be consumed and the calendar fields
must be in range. -/

def digitVal (c : Char) : Nat := c.toNat - 48

def parse2 : List Char → Option (Nat × List Char)
  | c1 :: c2 :: rest =>
    if c1.isDigit && c2.isDigit then
      some (digitVal c1 * 10 + digitVal c2, rest)
    else none
  | _ => none

def parse4 : List Char → Option (Nat × List Char)
  | c1 :: c2 :: c3 :: c4 :: rest =>
    if c1.isDigit && c2.isDigit && c3.isDigit && c4.isDigit then
      some (digitVal c1 * 1000 + digitVal c2 * 100 + digitVal c3 * 10 + digitVal c4, rest)
    else none
  | _ => none

def expectChar (c : Char) : List Char → Option (List Char)
  | c1 :: rest => if c1 == c then some rest else none
  | [] => none

def takeDigits : List Char → (List Char × List Char)
  | [] => ([], [])
  | c :: rest =>
    if c.isDigit then
      let (ds, r) := takeDigits rest
      (c :: ds, r)
    else ([], c :: rest)

/-- Value of a fractional-second digit string as nanoseconds: the first nine
digits, right-padded with zeros to nine places. -/
def fracNanos (ds : List Char) : Nat :=
  (ds.take 9 ++ List.replicate (9 - ds.length) '0').foldl
    (fun acc c => acc * 10 + digitVal c) 0

/-- Optional fractional seconds: a literal dot followed by one or more
digits; absent otherwise. -/
def parseSubsec : List Char → Option (Nat × List Char)
  | c :: rest =>
    if c == '.' then
      match takeDigits rest with
      | ([], _) => none
      | (ds, r) => some (fracNanos ds, r)
    else some (0, c :: rest)
  | [] => some (0, [])

/-- UTC offset: `Z`/`z`, or a mandatory sign, two-digit hour, colon,
two-digit minute. Result in whole seconds. -/
def parseOffset : List Char → Option (Int × List Char)
  | [] => none
  | c :: rest =>
    if c == 'Z' || c == 'z' then some (0, rest)
    else if c == '+' || c == '-' then
      match parse2 rest with
      | none => none
      | some (oh, r1) =>
        match expectChar ':' r1 with
        | none => none
        | some r2 =>
          match parse2 r2 with
          | none => none
          | some (om, r3) =>
            if oh ≤ 23 && om ≤ 59 then
              let total : Int := Int.ofNat (oh * 3600 + om * 60)
              some (if c == '-' then -total else total, r3)
            else none
    else none

def isLeapYear (y : Nat) : Bool :=
  (y % 4 == 0 && y % 100 != 0) || y % 400 == 0

def daysInMonth (y m : Nat) : Nat :=
  if m == 2 then (if isLeapYear y then 29 else 28)
  else if m == 4 || m == 6 || m == 9 || m == 11 then 30
  else 31

def parseRfc3339 (s : String) : Option OffsetDateTime :=
  match parse4 s.toList with
  | none => none
  | some (y, r1) =>
    match expectChar '-' r1 with
    | none => none
    | some r2 =>
      match parse2 r2 with
      | none => none
      | some (mo, r3) =>
        match expectChar '-' r3 with
        | none => none
        | some r4 =>
          match parse2 r4 with
          | none => none
          | some (d, r5) =>
            match r5 with
            | [] => none
            | sep :: r6 =>
              if sep == 'T' || sep == 't' then
                match parse2 r6 with
                | none => none
                | some (h, r7) =>
                  match expectChar ':' r7 with
                  | none => none
                  | some r8 =>
                    match parse2 r8 with
                    | none => none
                    | some (mi, r9) =>
                      match expectChar ':' r9 with
                      | none => none
                      | some r10 =>
                        match parse2 r10 with
                        | none => none
                        | some (sec, r11) =>
                          match parseSubsec r11 with
                          | none => none
                          | some (ns, r12) =>
                            match parseOffset r12 with
                            | none => none
                            | some (off, r13) =>
                              if r13 = [] && 1 ≤ mo && mo ≤ 12 && 1 ≤ d &&
                                  d ≤ daysInMonth y mo && h ≤ 23 && mi ≤ 59 &&
                                  sec ≤ 59 then
                                some ⟨y, mo, d, h, mi, sec, ns, off⟩
                              else none
              else none

/-! ## The `time` crate's default human-readable serde format

`#[derive(Serialize)]` on `Order` serializes `date_created` with
`time::OffsetDateTime`'s own `Serialize` impl. With a human-readable
serializer (serde_json is one) that impl formats the value with the crate's
default serde format description
`[year]-[month]-[day] [hour]:[minute]:[second].[subsecond]
[offset_hour sign:mandatory]:[offset_minute]:[offset_second]` —
note the space separator, the always-present subsecond part (at least one
digit), and the offset carrying a seconds component. It is not RFC3339. -/

def pad2 (n : Nat) : String :=
  if n < 10 then "0" ++ toString n else toString n

def pad4 (n : Nat) : String :=
  if n < 10 then "000" ++ toString n
  else if n < 100 then "00" ++ toString n
  else if n < 1000 then "0" ++ toString n
  else toString n

/-- Trailing-zero-trimmed decimal fraction of a nanosecond count, at least
one digit (`SubsecondDigits::OneOrMore`). -/
def subsecondStr (ns : Nat) : String :=
  let nine := (pad4 (ns / 100000) ++ pad4 ((ns / 10) % 10000) ++ toString (ns % 10)).toList
  let trimmed := (nine.reverse.dropWhile (fun c => c == '0')).reverse
  match trimmed with
  | [] => "0"
  | ds => String.mk ds

def offsetStr (off : Int) : String :=
  let sign := if off < 0 then "-" else "+"
  let a := off.natAbs
  sign ++ pad2 (a / 3600) ++ ":" ++ pad2 ((a % 3600) / 60) ++ ":" ++ pad2 (a % 60)

def formatDefault (dt : OffsetDateTime) : String :=
  pad4 dt.year ++ "-" ++ pad2 dt.month ++ "-" ++ pad2 dt.day ++ " " ++
    pad2 dt.hour ++ ":" ++ pad2 dt.minute ++ ":" ++ pad2 dt.second ++ "." ++
    subsecondStr dt.nanosecond ++ " " ++ offsetStr dt.offset

/-! ## Serialization (serde derive, main.rs lines 19-87)

Each struct serializes to a JSON object with its fields in declaration order;
`date_created` goes through `time::OffsetDateTime`'s `Serialize`, i.e. the
default human-readable format above. -/

def serializeDelivery (d : Delivery) : Json :=
  .obj [("name", .str d.name), ("phone", .str d.phone), ("zip", .str d.zip),
        ("city", .str d.city), ("address", .str d.address),
        ("region", .str d.region), ("email", .str d.email)]

def serializePayment (p : Payment) : Json :=
  .obj [("transaction", .str p.transaction), ("request_id", .str p.request_id),
        ("currency", .str p.currency), ("provider", .str p.provider),
        ("amount", .num (Int.ofNat p.amount)),
        ("payment_dt", .num (Int.ofNat p.payment_dt)),
        ("bank", .str p.bank),
        ("delivery_cost", .num (Int.ofNat p.delivery_cost)),
        ("goods_total", .num (Int.ofNat p.goods_total)),
        ("custom_fee", .num (Int.ofNat p.custom_fee))]

def serializeItem (it : Item) : Json :=
  .obj [("chrt_id", .num (Int.ofNat it.chrt_id)),
        ("track_number", .str it.track_number),
        ("price", .num (Int.ofNat it.price)), ("rid", .str it.rid),
        ("name", .str it.name), ("sale", .num (Int.ofNat it.sale)),
        ("size", .str it.size), ("total_price", .num (Int.ofNat it.total_price)),
        ("nm_id", .num (Int.ofNat it.nm_id)), ("brand", .str it.brand),
        ("status", .num (Int.ofNat it.status))]

def serializeItems (items : List Item) : Json :=
  .arr (items.map serializeItem)

/-- The serialization shape of an `Order` with an arbitrary raw string in the
`date_created` position. `serializeOrder` below instantiates it with the
formatted timestamp; claims about non-RFC3339 timestamps instantiate it with
other strings. -/
def orderJsonWithDate (o : Order) (dateRaw : String) : Json :=
  .obj [("order_uid", .str o.order_uid), ("track_number", .str o.track_number),
        ("entry", .str o.entry), ("delivery", serializeDelivery o.delivery),
        ("payment", serializePayment o.payment),
        ("items", serializeItems o.items), ("locale", .str o.locale),
        ("internal_signature", .str o.internal_signature),
        ("customer_id", .str o.customer_id),
        ("delivery_service", .str o.delivery_service),
        ("shardkey", .str o.shardkey), ("sm_id", .num (Int.ofNat o.sm_id)),
        ("date_created", .str dateRaw), ("oof_shard", .str o.oof_shard)]

def serializeOrder (o : Order) : Json :=
  orderJsonWithDate o (formatDefault o.date_created)

/-! ## Deserialization (serde derive plus `deserialize_offset_datetime`) -/

inductive DecodeError where
  | notAnObject (what : String)
  | missingField (field : String)
  | duplicateField (field : String)
  | typeMismatch (field : String)
  | badTimestamp (raw : String)
deriving DecidableEq, Repr

/-- Field lookup in a JSON object as serde's derived map visitor sees it:
a field that never occurs is `missing field`, one that occurs twice is
`duplicate field`, unknown keys are ignored. -/
def jsonField (fields : List (String × Json)) (name : String) :
    Except DecodeError Json :=
  match fields.filter (fun p => p.1 == name) with
  | [] => .error (.missingField name)
  | [p] => .ok p.2
  | _ => .error (.duplicateField name)

def asString (field : String) : Json → Except DecodeError String
  | .str s => .ok s
  | _ => .error (.typeMismatch field)

def asU32 (field : String) : Json → Except DecodeError Nat
  | .num (Int.ofNat n) => if n < 4294967296 then .ok n
                          else .error (.typeMismatch field)
  | _ => .error (.typeMismatch field)

def asU64 (field : String) : Json → Except DecodeError Nat
  | .num (Int.ofNat n) => if n < 18446744073709551616 then .ok n
                          else .error (.typeMismatch field)
  | _ => .error (.typeMismatch field)

def asArray (field : String) : Json → Except DecodeError (List Json)
  | .arr elems => .ok elems
  | _ => .error (.typeMismatch field)

/-- `deserialize_offset_datetime` (main.rs lines 61-68): deserialize a
`String`, then `OffsetDateTime::parse(&s, &Rfc3339)`; a parse failure is a
custom serde error. -/
def deserialize_offset_datetime (j : Json) : Except DecodeError OffsetDateTime :=
  match j with
  | .str s =>
    match parseRfc3339 s with
    | some dt => .ok dt
    | none => .error (.badTimestamp s)
  | _ => .error (.typeMismatch "date_created")

def decodeDelivery (j : Json) : Except DecodeError Delivery :=
  match j with
  | .obj fs => do
    let name ← jsonField fs "name" >>= asString "name"
    let phone ← jsonField fs "phone" >>= asString "phone"
    let zip ← jsonField fs "zip" >>= asString "zip"
    let city ← jsonField fs "city" >>= asString "city"
    let address ← jsonField fs "address" >>= asString "address"
    let region ← jsonField fs "region" >>= asString "region"
    let email ← jsonField fs "email" >>= asString "email"
    pure ⟨name, phone, zip, city, address, region, email⟩
  | _ => .error (.notAnObject "delivery")

def decodePayment (j : Json) : Except DecodeError Payment :=
  match j with
  | .obj fs => do
    let transaction ← jsonField fs "transaction" >>= asString "transaction"
    let request_id ← jsonField fs "request_id" >>= asString "request_id"
    let currency ← jsonField fs "currency" >>= asString "currency"
    let provider ← jsonField fs "provider" >>= asString "provider"
    let amount ← jsonField fs "amount" >>= asU32 "amount"
    let payment_dt ← jsonField fs "payment_dt" >>= asU64 "payment_dt"
    let bank ← jsonField fs "bank" >>= asString "bank"
    let delivery_cost ← jsonField fs "delivery_cost" >>= asU32 "delivery_cost"
    let goods_total ← jsonField fs "goods_total" >>= asU32 "goods_total"
    let custom_fee ← jsonField fs "custom_fee" >>= asU32 "custom_fee"
    pure ⟨transaction, request_id, currency, provider, amount, payment_dt,
          bank, delivery_cost, goods_total, custom_fee⟩
  | _ => .error (.notAnObject "payment")

def decodeItem (j : Json) : Except DecodeError Item :=
  match j with
  | .obj fs => do
    let chrt_id ← jsonField fs "chrt_id" >>= asU64 "chrt_id"
    let track_number ← jsonField fs "track_number" >>= asString "track_number"
    let price ← jsonField fs "price" >>= asU32 "price"
    let rid ← jsonField fs "rid" >>= asString "rid"
    let name ← jsonField fs "name" >>= asString "name"
    let sale ← jsonField fs "sale" >>= asU32 "sale"
    let size ← jsonField fs "size" >>= asString "size"
    let total_price ← jsonField fs "total_price" >>= asU32 "total_price"
    let nm_id ← jsonField fs "nm_id" >>= asU64 "nm_id"
    let brand ← jsonField fs "brand" >>= asString "brand"
    let status ← jsonField fs "status" >>= asU32 "status"
    pure ⟨chrt_id, track_number, price, rid, name, sale, size, total_price,
          nm_id, brand, status⟩
  | _ => .error (.notAnObject "item")

def decodeItems : List Json → Except DecodeError (List Item)
  | [] => .ok []
  | j :: rest => do
    let it ← decodeItem j
    let its ← decodeItems rest
    pure (it :: its)

/-- serde's derived `Deserialize` for `Order`: every field required, nested
objects decoded recursively, `date_created` via
`deserialize_offset_datetime`. -/
def decodeOrder (j : Json) : Except DecodeError Order :=
  match j with
  | .obj fs => do
    let order_uid ← jsonField fs "order_uid" >>= asString "order_uid"
    let track_number ← jsonField fs "track_number" >>= asString "track_number"
    let entry ← jsonField fs "entry" >>= asString "entry"
    let delivery ← jsonField fs "delivery" >>= decodeDelivery
    let payment ← jsonField fs "payment" >>= decodePayment
    let items ← jsonField fs "items" >>= asArray "items" >>= decodeItems
    let locale ← jsonField fs "locale" >>= asString "locale"
    let internal_signature ←
      jsonField fs "internal_signature" >>= asString "internal_signature"
    let customer_id ← jsonField fs "customer_id" >>= asString "customer_id"
    let delivery_service ←
      jsonField fs "delivery_service" >>= asString "delivery_service"
    let shardkey ← jsonField fs "shardkey" >>= asString "shardkey"
    let sm_id ← jsonField fs "sm_id" >>= asU32 "sm_id"
    let date_created ← jsonField fs "date_created" >>= deserialize_offset_datetime
    let oof_shard ← jsonField fs "oof_shard" >>= asString "oof_shard"
    pure ⟨order_uid, track_number, entry, delivery, payment, items, locale,
          internal_signature, customer_id, delivery_service, shardkey, sm_id,
          date_created, oof_shard⟩
  | _ => .error (.notAnObject "order")

/-! ## Well-formedness

A well-formed `Order` is one representable in the Rust data model: the
unsigned integer fields fit their machine types and the timestamp is a valid
calendar datetime with a four-digit year and an offset a real RFC3339 string
can denote. -/

def paymentWf (p : Payment) : Bool :=
  p.amount < 4294967296 && p.payment_dt < 18446744073709551616 &&
    p.delivery_cost < 4294967296 && p.goods_total < 4294967296 &&
    p.custom_fee < 4294967296

def itemWf (it : Item) : Bool :=
  it.chrt_id < 18446744073709551616 && it.price < 4294967296 &&
    it.sale < 4294967296 && it.total_price < 4294967296 &&
    it.nm_id < 18446744073709551616 && it.status < 4294967296

def dateWf (dt : OffsetDateTime) : Bool :=
  dt.year ≤ 9999 && 1 ≤ dt.month && dt.month ≤ 12 && 1 ≤ dt.day &&
    dt.day ≤ daysInMonth dt.year dt.month && dt.hour ≤ 23 && dt.minute ≤ 59 &&
    dt.second ≤ 59 && dt.nanosecond < 1000000000 &&
    dt.offset.natAbs ≤ 23 * 3600 + 59 * 60 && dt.offset % 60 == 0

/-- All fields other than the timestamp are representable. -/
def orderFieldsWf (o : Order) : Bool :=
  paymentWf o.payment && o.items.all itemWf && o.sm_id < 4294967296

def orderWf (o : Order) : Bool :=
  orderFieldsWf o && dateWf o.date_created

/-! ## Order Store: schema (`init_orders_shema`, main.rs lines 114-138) -/

inductive SqlTy where
  | serialTy
  | varcharTy
  | jsonbTy
  | timestamptzTy
  | integerTy
deriving DecidableEq, Repr

structure ColumnDef where
  name : String
  ty : SqlTy
  notNull : Bool
  primaryKey : Bool
  uniqueConstraint : Bool
  defaultNow : Bool
deriving DecidableEq, Repr

/-- The column list of `CREATE TABLE IF NOT EXISTS orders (...)`
(main.rs lines 116-132), verbatim: note `sm_id VARCHAR NOT NULL` and
`oof_shard INTEGER`. The only constraint is the primary key on `id`. -/
def ordersColumns : List ColumnDef :=
  [⟨"id", .serialTy, true, true, false, false⟩,
   ⟨"order_uid", .varcharTy, true, false, false, false⟩,
   ⟨"track_number", .varcharTy, true, false, false, false⟩,
   ⟨"entry", .varcharTy, true, false, false, false⟩,
   ⟨"delivery", .jsonbTy, false, false, false, false⟩,
   ⟨"payment", .jsonbTy, false, false, false, false⟩,
   ⟨"items", .jsonbTy, false, false, false, false⟩,
   ⟨"locale", .varcharTy, true, false, false, false⟩,
   ⟨"internal_signature", .varcharTy, true, false, false, false⟩,
   ⟨"customer_id", .varcharTy, true, false, false, false⟩,
   ⟨"delivery_service", .varcharTy, true, false, false, false⟩,
   ⟨"shardkey", .varcharTy, true, false, false, false⟩,
   ⟨"sm_id", .varcharTy, true, false, false, false⟩,
   ⟨"date_created", .timestamptzTy, false, false, false, true⟩,
   ⟨"oof_shard", .integerTy, false, false, false, false⟩]

structure TableSchema where
  columns : List ColumnDef
deriving DecidableEq, Repr

def ordersSchema : TableSchema := ⟨ordersColumns⟩

/-- `sqlx::Error` as it reaches this code: an opaque error value. -/
structure StoreError where
  message : String
deriving DecidableEq, Repr

/-- The visible state of the `orders` relation: whether the table exists (and
with which schema) and its rows. A row is the tuple of the fourteen values
`save_order_to_db` binds. -/
structure DbRow where
  order_uid : String
  track_number : String
  entry : String
  delivery : Json
  payment : Json
  items : Json
  locale : String
  internal_signature : String
  customer_id : String
  delivery_service : String
  shardkey : String
  sm_id : Int
  date_created : OffsetDateTime
  oof_shard : String
deriving Repr

structure DbState where
  ordersTable : Option TableSchema
  ordersRows : List DbRow
deriving Repr

/-- `init_orders_shema` (main.rs lines 114-138) executes a single
`CREATE TABLE IF NOT EXISTS orders (...)`. Postgres semantics of
`IF NOT EXISTS`: when the table already exists the statement is a no-op that
succeeds; otherwise the table is created empty with the declared columns.
Either way no row is touched. -/
def init_orders_shema (db : DbState) : Except StoreError DbState :=
  match db.ordersTable with
  | some _ => .ok db
  | none => .ok { db with ordersTable := some ordersSchema }

/-- Result of `init_orders_shema`, as a total function (the statement never
errors). -/
def applySchema (db : DbState) : DbState :=
  match db.ordersTable with
  | some _ => db
  | none => { db with ordersTable := some ordersSchema }

/-! ## Order Store: insert (`save_order_to_db`, main.rs lines 140-172) -/

/-- The wrapping `as i32` cast applied to `order.sm_id : u32` on
main.rs line 164. -/
def u32AsI32 (n : Nat) : Int :=
  if n % 4294967296 < 2147483648 then Int.ofNat (n % 4294967296)
  else Int.ofNat (n % 4294967296) - 4294967296

/-- The row `save_order_to_db` binds: `delivery`, `payment`, `items` are
serialized to JSON values with `serde_json::to_value` (lines 141-143), the
other fields are bound directly, with `order.sm_id as i32`. -/
def orderRow (o : Order) : DbRow :=
  ⟨o.order_uid, o.track_number, o.entry, serializeDelivery o.delivery,
   serializePayment o.payment, serializeItems o.items, o.locale,
   o.internal_signature, o.customer_id, o.delivery_service, o.shardkey,
   u32AsI32 o.sm_id, o.date_created, o.oof_shard⟩

/-- Shape of the SQL text in `save_order_to_db`: a single `INSERT INTO orders
(...) VALUES ($1, ..., $14)` — one row tuple, no `ON CONFLICT` clause. -/
structure InsertStmt where
  table : String
  columns : List String
  rowTuples : Nat
  onConflictClause : Option String
deriving DecidableEq, Repr

def ordersInsertStmt : InsertStmt :=
  ⟨"orders",
   ["order_uid", "track_number", "entry", "delivery", "payment", "items",
    "locale", "internal_signature", "customer_id", "delivery_service",
    "shardkey", "sm_id", "date_created", "oof_shard"], 1, none⟩

/-- `save_order_to_db` (main.rs lines 140-172): executes the single insert
statement above. `ioFailure` is the environment's answer for this execution
(`sqlx` reports connectivity/constraint/type failures as `sqlx::Error`): on
failure the statement writes nothing; on success exactly the one bound row is
appended after all existing rows. -/
def save_order_to_db (rows : List DbRow) (o : Order)
    (ioFailure : Option StoreError) : Except StoreError (List DbRow) :=
  match ioFailure with
  | some e => .error e
  | none => .ok (rows ++ [orderRow o])

/-! ## Bind-parameter types of the insert vs. declared column types -/

inductive PgBindTy where
  | textBind
  | jsonbBind
  | int4Bind
  | timestamptzBind
deriving DecidableEq, Repr

/-- The Postgres types `save_order_to_db` binds for `$1`..`$14`
(main.rs lines 153-166), from the Rust expression types: `String` → text,
`serde_json::Value` → jsonb, `order.sm_id as i32` → int4,
`OffsetDateTime` → timestamptz. -/
def saveBinds : List (String × PgBindTy) :=
  [("order_uid", .textBind), ("track_number", .textBind), ("entry", .textBind),
   ("delivery", .jsonbBind), ("payment", .jsonbBind), ("items", .jsonbBind),
   ("locale", .textBind), ("internal_signature", .textBind),
   ("customer_id", .textBind), ("delivery_service", .textBind),
   ("shardkey", .textBind), ("sm_id", .int4Bind),
   ("date_created", .timestamptzBind), ("oof_shard", .textBind)]

/-- Whether Postgres accepts a parameter of the given bound type in an insert
position of the given declared column type (assignment casts only: text goes
to varchar, jsonb to jsonb, int4 to integer/serial, timestamptz to
timestamptz; there is no implicit cast between integer and varchar/text in
either direction). -/
def bindCompatible : PgBindTy → SqlTy → Bool
  | .textBind, .varcharTy => true
  | .jsonbBind, .jsonbTy => true
  | .int4Bind, .integerTy => true
  | .int4Bind, .serialTy => true
  | .timestamptzBind, .timestamptzTy => true
  | _, _ => false

/-- The columns for which the type `save_order_to_db` binds is not accepted
by the column type `init_orders_shema` declares. -/
def mismatchedColumns : List String :=
  saveBinds.filterMap fun p =>
    match ordersColumns.find? (fun c => c.name == p.1) with
    | some c => if bindCompatible p.2 c.ty then none else some p.1
    | none => some p.1

def insertTypeCompatible : Bool :=
  saveBinds.all fun p =>
    match ordersColumns.find? (fun c => c.name == p.1) with
    | some c => bindCompatible p.2 c.ty
    | none => false

/-! ## Latest-Order Cache and HTTP handlers (main.rs lines 92-112, 175-201) -/

/-- `*state = Some(order.clone())` (main.rs line 181): unconditional
overwrite of the single slot. -/
def cacheSet (o : Order) (_slot : Option Order) : Option Order := some o

/-- Reading the slot under the lock (`&*state`, main.rs line 195). -/
def cacheGet (slot : Option Order) : Option Order := slot

/-- `let shared_state = Arc::new(Mutex::new(None))` (main.rs line 214). -/
def initialSharedState : Option Order := none

structure HttpResponse where
  status : Nat
  body : String
deriving DecidableEq, Repr

/-- `&'static str`'s / `Html`'s `into_response()`: HTTP 200 with the given
body. -/
def strIntoResponse (s : String) : HttpResponse := ⟨200, s⟩

/-- `handle_order` (main.rs lines 175-191) on an already-decoded order: lock
the shared slot, overwrite it with the order, then run `save_order_to_db`; on
error answer "Failed to save order", otherwise "Order received". The slot is
never restored on failure. Returns (cache slot, table rows, response). -/
def handle_order (cache : Option Order) (rows : List DbRow) (order : Order)
    (ioFailure : Option StoreError) :
    Option Order × List DbRow × HttpResponse :=
  let locked := cacheSet order cache
  match save_order_to_db rows order ioFailure with
  | .error _ => (locked, rows, strIntoResponse "Failed to save order")
  | .ok rows1 => (locked, rows1, strIntoResponse "Order received")

/-- The ordered effects of one `handle_order` execution. -/
inductive Event where
  | lockAcquire
  | cacheWrite (o : Order)
  | insertAttempt (o : Order)
  | respond (body : String)
  | lockRelease
deriving DecidableEq, Repr

/-- Effect order in `handle_order`: acquire the lock (line 180), write the
slot (line 181), attempt the insert (line 184), answer, and only then release
the lock (the `MutexGuard` lives to the end of the function on both return
paths). -/
def handleOrderEvents (order : Order) (ioFailure : Option StoreError) :
    List Event :=
  [Event.lockAcquire, Event.cacheWrite order, Event.insertAttempt order,
   Event.respond (match ioFailure with
     | some _ => "Failed to save order"
     | none => "Order received"),
   Event.lockRelease]

/-! ## `show_order` (main.rs lines 193-201)

`serde_json::to_string_pretty` renders with two-space indentation; the order,
if present, is wrapped in `<pre>` tags, else the fixed placeholder paragraph
is returned. Both answers are `Html(..)`, i.e. HTTP 200. -/

def indentStr (n : Nat) : String := String.mk (List.replicate n ' ')

def jsonEscapeChar (c : Char) : String :=
  if c == '"' then "\\\""
  else if c == '\\' then "\\\\"
  else if c == '\n' then "\\n"
  else if c == '\t' then "\\t"
  else if c == '\r' then "\\r"
  else String.singleton c

def jsonQuote (s : String) : String :=
  "\"" ++ String.join (s.toList.map jsonEscapeChar) ++ "\""

mutual

def renderPretty (ind : Nat) : Json → String
  | .null => "null"
  | .bool b => cond b "true" "false"
  | .num n => toString n
  | .str s => jsonQuote s
  | .arr [] => "[]"
  | .arr (x :: xs) =>
    "[\n" ++
      String.intercalate ",\n" (renderPrettyElems (ind + 2) (x :: xs)) ++
      "\n" ++ indentStr ind ++ "]"
  | .obj [] => "\x7b\x7d"
  | .obj (f :: fs) =>
    "\x7b\n" ++
      String.intercalate ",\n" (renderPrettyFields (ind + 2) (f :: fs)) ++
      "\n" ++ indentStr ind ++ "\x7d"

def renderPrettyElems (ind : Nat) : List Json → List String
  | [] => []
  | x :: xs => (indentStr ind ++ renderPretty ind x) :: renderPrettyElems ind xs

def renderPrettyFields (ind : Nat) : List (String × Json) → List String
  | [] => []
  | (k, v) :: fs =>
    (indentStr ind ++ jsonQuote k ++ ": " ++ renderPretty ind v) ::
      renderPrettyFields ind fs

end

def show_order (cache : Option Order) : HttpResponse :=
  match cacheGet cache with
  | some o =>
    strIntoResponse ("<pre>" ++ renderPretty 0 (serializeOrder o) ++ "</pre>")
  | none => strIntoResponse "<p>No order received yet.</p>"

/-! ## Two concurrent POST /order handlers

An interleaving machine for two in-flight `handle_order` executions, A and B,
sharing the tokio `Mutex`-protected slot. The decisive control-flow fact from
the source: the guard obtained on line 180 is dropped only when the handler
returns, so it is held across the `save_order_to_db(...).await` on
line 184. Program counters: `start` (before `lock().await` returns),
`locked` (guard held, about to write the slot), `inserting` (slot written,
insert in flight), `done` (handler returned, guard dropped). -/

inductive Pc where
  | start
  | locked
  | inserting
  | done
deriving DecidableEq, Repr

/-- `cacheHolds`: which request's order the slot holds (`false` = A,
`true` = B), `none` while still empty. -/
structure TwoPosts where
  pcA : Pc
  pcB : Pc
  lockHolder : Option Bool
  cacheHolds : Option Bool
deriving DecidableEq, Repr

inductive Act where
  | acquireA
  | writeA
  | finishA
  | acquireB
  | writeB
  | finishB
deriving DecidableEq, Repr

/-- One atomic step of either handler, `none` when the action is not enabled
in the given state. `acquire` needs the lock to be free (a `lock().await`
while it is held suspends, i.e. takes no step); `finish` covers the insert
completing (either way) and the handler returning, which drops the guard. -/
def postStep (s : TwoPosts) : Act → Option TwoPosts
  | .acquireA =>
    if s.pcA = .start ∧ s.lockHolder = none then
      some { s with pcA := .locked, lockHolder := some false }
    else none
  | .writeA =>
    if s.pcA = .locked then
      some { s with pcA := .inserting, cacheHolds := some false }
    else none
  | .finishA =>
    if s.pcA = .inserting then
      some { s with pcA := .done, lockHolder := none }
    else none
  | .acquireB =>
    if s.pcB = .start ∧ s.lockHolder = none then
      some { s with pcB := .locked, lockHolder := some true }
    else none
  | .writeB =>
    if s.pcB = .locked then
      some { s with pcB := .inserting, cacheHolds := some true }
    else none
  | .finishB =>
    if s.pcB = .inserting then
      some { s with pcB := .done, lockHolder := none }
    else none

def initPosts : TwoPosts := ⟨.start, .start, none, none⟩

def runPosts : TwoPosts → List Act → Option TwoPosts
  | s, [] => some s
  | s, a :: rest =>
    match postStep s a with
    | some s1 => runPosts s1 rest
    | none => none

/-- Reachability from the initial two-request state. -/
def PostReachable (s : TwoPosts) : Prop :=
  Relation.ReflTransGen (fun x y => ∃ a, postStep x a = some y) initPosts s

/-- The lock-ownership invariant of the machine. -/
def postInv (s : TwoPosts) : Prop :=
  ((s.pcA = .locked ∨ s.pcA = .inserting) → s.lockHolder = some false) ∧
    ((s.pcB = .locked ∨ s.pcB = .inserting) → s.lockHolder = some true)

/-! ## A concrete well-formed order (the example scenario of the spec) -/

def sampleDate : OffsetDateTime := ⟨2021, 11, 26, 6, 22, 19, 0, 0⟩

def sampleOrder : Order :=
  ⟨"b563feb7b2b84b6test", "WBILMTESTTRACK", "WBIL",
   ⟨"Test Testov", "+9720000000", "2639809", "Kiryat Mozkin",
    "Ploshad Mira 15", "Krasnodar", "test@gmail.com"⟩,
   ⟨"b563feb7b2b84b6test", "", "USD", "wbpay", 1817, 1637907727, "alpha",
    1500, 317, 0⟩,
   [⟨9934930, "WBILMTESTTRACK", 453, "ab4219087a764ae0btest", "Mascaras", 30,
     "0", 317, 2389212, "Vivienne Sabo", 202⟩],
   "en", "", "test", "meest", "9", 99, sampleDate, "1"⟩

/-! ## Decode/serialize lemmas -/

theorem exceptBind_ok {α β ε : Type} (a : α) (f : α → Except ε β) :
    (Except.ok a : Except ε α) >>= f = f a := rfl

theorem exceptBind_error {α β ε : Type} (e : ε) (f : α → Except ε β) :
    (Except.error e : Except ε α) >>= f = Except.error e := rfl

theorem exceptMap_ok {α β ε : Type} (a : α) (f : α → β) :
    f <$> (Except.ok a : Except ε α) = Except.ok (f a) := rfl

theorem exceptMap_error {α β ε : Type} (e : ε) (f : α → β) :
    f <$> (Except.error e : Except ε α) = Except.error e := rfl

theorem asU32_cast (field : String) (n : Nat) (h : n < 4294967296) :
    asU32 field (Json.num (n : Int)) = .ok n := by
  show asU32 field (Json.num (Int.ofNat n)) = .ok n
  simp [asU32, h]

theorem asU64_cast (field : String) (n : Nat) (h : n < 18446744073709551616) :
    asU64 field (Json.num (n : Int)) = .ok n := by
  show asU64 field (Json.num (Int.ofNat n)) = .ok n
  simp [asU64, h]

theorem decodeDelivery_serialize (d : Delivery) :
    decodeDelivery (serializeDelivery d) = .ok d := rfl

theorem decodePayment_serialize (p : Payment) (h : paymentWf p = true) :
    decodePayment (serializePayment p) = .ok p := by
  simp only [paymentWf, Bool.and_eq_true, decide_eq_true_eq] at h
  obtain ⟨⟨⟨⟨h1, h2⟩, h3⟩, h4⟩, h5⟩ := h
  simp [decodePayment, serializePayment, jsonField, asString,
        exceptBind_ok, exceptMap_ok,
        asU32_cast _ _ h1, asU64_cast _ _ h2, asU32_cast _ _ h3,
        asU32_cast _ _ h4, asU32_cast _ _ h5]

theorem decodeItem_serialize (it : Item) (h : itemWf it = true) :
    decodeItem (serializeItem it) = .ok it := by
  simp only [itemWf, Bool.and_eq_true, decide_eq_true_eq] at h
  obtain ⟨⟨⟨⟨⟨h1, h2⟩, h3⟩, h4⟩, h5⟩, h6⟩ := h
  simp [decodeItem, serializeItem, jsonField, asString,
        exceptBind_ok, exceptMap_ok,
        asU64_cast _ _ h1, asU32_cast _ _ h2, asU32_cast _ _ h3,
        asU32_cast _ _ h4, asU64_cast _ _ h5, asU32_cast _ _ h6]

theorem decodeItems_serialize (items : List Item)
    (h : items.all itemWf = true) :
    decodeItems (items.map serializeItem) = .ok items := by
  induction items with
  | nil => rfl
  | cons it rest ih =>
    simp only [List.all_cons, Bool.and_eq_true] at h
    simp [decodeItems, decodeItem_serialize it h.1, ih h.2,
          exceptBind_ok, exceptMap_ok]

/-- Decoding the exact serialization shape of a well-formed order, with an
arbitrary raw string in the `date_created` position: every other field
decodes back to itself, and the result hinges solely on the RFC3339 parse of
that string. -/
theorem decodeOrder_orderJsonWithDate (o : Order) (s : String)
    (h : orderFieldsWf o = true) :
    decodeOrder (orderJsonWithDate o s) =
      match parseRfc3339 s with
      | some dt => .ok { o with date_created := dt }
      | none => .error (.badTimestamp s) := by
  simp only [orderFieldsWf, Bool.and_eq_true, decide_eq_true_eq] at h
  obtain ⟨⟨hp, hi⟩, hs⟩ := h
  simp [decodeOrder, orderJsonWithDate, jsonField, asString, asArray,
        serializeItems, exceptBind_ok, exceptMap_ok,
        decodeDelivery_serialize, decodePayment_serialize _ hp,
        decodeItems_serialize _ hi, asU32_cast _ _ hs,
        deserialize_offset_datetime]
  cases hpq : parseRfc3339 s with
  | some dt => simp [exceptBind_ok, exceptMap_ok]
  | none => simp [exceptBind_error, exceptMap_error]

/-! ## Lock-ownership invariant of the two-request machine -/

theorem postInv_init : postInv initPosts := by
  constructor <;> intro h <;> rcases h with h | h <;> simp [initPosts] at h

theorem postInv_step {s t : TwoPosts} {a : Act} (hs : postInv s)
    (h : postStep s a = some t) : postInv t := by
  obtain ⟨hA, hB⟩ := hs
  cases a <;> simp only [postStep] at h <;> split at h <;>
    simp only [Option.some.injEq, reduceCtorEq] at h <;> subst h <;>
    constructor <;> intro hc <;> first
      | rfl
      | (exfalso
         rename_i hcond
         rcases hcond with ⟨hpc, hlock⟩
         rcases hc with hc | hc <;> simp_all)
      | simp_all

theorem postReachable_inv {s : TwoPosts} (h : PostReachable s) : postInv s := by
  induction h with
  | refl => exact postInv_init
  | tail _ hstep ih =>
    obtain ⟨a, ha⟩ := hstep
    exact postInv_step ih ha

/-! ## The claims -/

/-- C1: the round-trip property fails on the code. The spec's own example
order is well-formed, yet serializing it renders `date_created` in the `time`
crate's default human-readable format ("2021-11-26 06:22:19.0 +00:00:00"),
which the program's decoder — requiring RFC3339 — rejects, so decoding the
serialized form yields a `DecodeError` instead of the original order. The
same order decodes fine when `date_created` is the RFC3339 string the
service originally accepted, isolating the serializer/decoder asymmetry. -/
theorem claim_c1_roundtrip_fails :
    orderWf sampleOrder = true ∧
    serializeOrder sampleOrder =
      orderJsonWithDate sampleOrder "2021-11-26 06:22:19.0 +00:00:00" ∧
    decodeOrder (serializeOrder sampleOrder) =
      .error (.badTimestamp "2021-11-26 06:22:19.0 +00:00:00") ∧
    decodeOrder (orderJsonWithDate sampleOrder "2021-11-26T06:22:19Z") =
      .ok sampleOrder :=
  ⟨by decide, rfl, rfl, rfl⟩

/-- C2: the bind types of `save_order_to_db` do NOT agree with the column
types declared by `init_orders_shema`: `sm_id` is bound as int4 against a
`VARCHAR NOT NULL` column and `oof_shard` as text against an `INTEGER`
column; exactly those two columns mismatch (all twelve others agree). -/
theorem claim_c2_bind_types_incompatible :
    insertTypeCompatible = false ∧
    mismatchedColumns = ["sm_id", "oof_shard"] ∧
    ((ordersColumns.find? fun c => c.name == "sm_id").map ColumnDef.ty =
      some .varcharTy) ∧
    ((saveBinds.find? fun p => p.1 == "sm_id").map Prod.snd =
      some .int4Bind) ∧
    ((ordersColumns.find? fun c => c.name == "oof_shard").map ColumnDef.ty =
      some .integerTy) ∧
    ((saveBinds.find? fun p => p.1 == "oof_shard").map Prod.snd =
      some .textBind) :=
  ⟨rfl, rfl, rfl, rfl, rfl, rfl⟩

/-- C3: when the store insert fails, `handle_order` answers with the literal
body "Failed to save order" but with the same transport status (200) as the
success answer "Order received"; only the body distinguishes the two. -/
theorem claim_c3_failure_status_equals_success (cache : Option Order)
    (rows : List DbRow) (o : Order) (e : StoreError) :
    (handle_order cache rows o (some e)).2.2.status =
      (handle_order cache rows o none).2.2.status ∧
    (handle_order cache rows o (some e)).2.2.body = "Failed to save order" ∧
    (handle_order cache rows o none).2.2.body = "Order received" ∧
    ("Failed to save order" : String) ≠ "Order received" :=
  ⟨rfl, rfl, rfl, by decide⟩

/-- C3 witness at a concrete failing request. -/
theorem claim_c3_witness :
    (handle_order none [] sampleOrder (some ⟨"db down"⟩)).2.2.status =
      (handle_order none [] sampleOrder none).2.2.status :=
  (claim_c3_failure_status_equals_success none [] sampleOrder ⟨"db down"⟩).1

/-- C4: `handle_order` overwrites the cache slot before attempting the
insert (the slot write is event 1, the insert attempt event 2 of its trace),
and a failed insert does not roll the slot back: the final cache state after
a failed save is still the order of the failed request, and `get` returns
it. -/
theorem claim_c4_cache_written_before_insert_no_rollback (cache : Option Order)
    (rows : List DbRow) (o : Order) (e : StoreError) :
    (handle_order cache rows o (some e)).1 = some o ∧
    cacheGet ((handle_order cache rows o (some e)).1) = some o ∧
    (handleOrderEvents o (some e))[1]? = some (.cacheWrite o) ∧
    (handleOrderEvents o (some e))[2]? = some (.insertAttempt o) ∧
    (handle_order cache rows o (some e)).2.1 = rows :=
  ⟨rfl, rfl, rfl, rfl, rfl⟩

/-- C5 counterexample: after request A acquires the lock and writes the
slot, A's insert is in progress (`pcA = inserting`) in a state reached by
two legal steps — and in that state B's `lock().await` cannot complete:
`acquireB` is disabled, and no step available to B yields B the lock. This
refutes the claim that another request can still acquire the cache lock
while an insert is in progress. -/
theorem claim_c5_counterexample :
    runPosts initPosts [.acquireA, .writeA] =
      some ⟨.inserting, .start, some false, some false⟩ ∧
    (⟨.inserting, .start, some false, some false⟩ : TwoPosts).pcA =
      .inserting ∧
    postStep ⟨.inserting, .start, some false, some false⟩ .acquireB = none ∧
    ((postStep ⟨.inserting, .start, some false, some false⟩ .acquireB).all
        fun s1 => s1.lockHolder != some true) = true ∧
    ((postStep ⟨.inserting, .start, some false, some false⟩ .writeB).all
        fun s1 => s1.lockHolder != some true) = true ∧
    ((postStep ⟨.inserting, .start, some false, some false⟩ .finishB).all
        fun s1 => s1.lockHolder != some true) = true := by
  decide

/-- C5 (amended): in every reachable state of two concurrent POST handlers,
a request whose insert is in progress holds the cache lock, so the other
request's lock acquisition is disabled until the first handler returns. -/
theorem claim_c5_lock_held_across_insert (s : TwoPosts)
    (h : PostReachable s) :
    (s.pcA = .inserting →
      s.lockHolder = some false ∧ postStep s .acquireB = none) ∧
    (s.pcB = .inserting →
      s.lockHolder = some true ∧ postStep s .acquireA = none) := by
  obtain ⟨hA, hB⟩ := postReachable_inv h
  constructor
  · intro hpc
    have hl := hA (Or.inr hpc)
    exact ⟨hl, by simp [postStep, hl]⟩
  · intro hpc
    have hl := hB (Or.inr hpc)
    exact ⟨hl, by simp [postStep, hl]⟩

/-- C5 witness at the concrete reachable state in which A is inserting. -/
theorem claim_c5_witness :
    (⟨.inserting, .start, some false, some false⟩ : TwoPosts).lockHolder =
      some false ∧
    postStep ⟨.inserting, .start, some false, some false⟩ .acquireB = none := by
  have h1 : PostReachable ⟨.locked, .start, some false, none⟩ :=
    Relation.ReflTransGen.single ⟨.acquireA, rfl⟩
  have h2 : PostReachable ⟨.inserting, .start, some false, some false⟩ :=
    h1.tail ⟨.writeA, rfl⟩
  exact (claim_c5_lock_held_across_insert _ h2).1 rfl

/-- C6: a payload in the full serialization shape of any order whose other
fields are representable, but whose `date_created` string is not RFC3339,
decodes to exactly the timestamp `DecodeError`; the validity of every other
field does not mask it. -/
theorem claim_c6_non_rfc3339_timestamp_rejected (o : Order) (s : String)
    (hwf : orderFieldsWf o = true) (hbad : parseRfc3339 s = none) :
    decodeOrder (orderJsonWithDate o s) = .error (.badTimestamp s) := by
  rw [decodeOrder_orderJsonWithDate o s hwf, hbad]

/-- C6 witness on a concrete order and non-RFC3339 timestamp string. -/
theorem claim_c6_witness :
    decodeOrder (orderJsonWithDate sampleOrder "26/11/2021 06:22") =
      .error (.badTimestamp "26/11/2021 06:22") :=
  claim_c6_non_rfc3339_timestamp_rejected sampleOrder "26/11/2021 06:22"
    (by decide) (by decide)

/-- C7: `set` (the slot assignment of `handle_order`) unconditionally
overwrites the single slot: after setting A then B, `get` returns B, from
any prior slot contents; likewise the cache state left by two sequential
`handle_order` calls is the second order, whatever each save returned. -/
theorem claim_c7_last_write_wins (A B : Order) (slot cache : Option Order)
    (rows : List DbRow) (rA rB : Option StoreError) :
    cacheGet (cacheSet B (cacheSet A slot)) = some B ∧
    cacheSet B slot = some B ∧
    (handle_order (handle_order cache rows A rA).1 rows B rB).1 = some B := by
  refine ⟨rfl, rfl, ?_⟩
  cases rB <;> rfl

/-- C8: the freshly initialized cache slot is `None`, `get` reports absent,
and `GET /` then answers HTTP 200 with the fixed placeholder paragraph, not
an order body. -/
theorem claim_c8_fresh_cache_placeholder :
    cacheGet initialSharedState = none ∧
    show_order initialSharedState =
      strIntoResponse "<p>No order received yet.</p>" ∧
    (show_order initialSharedState).status = 200 :=
  ⟨rfl, rfl, rfl⟩

/-- C9: `init_orders_shema` is idempotent: it never errors, running it twice
in a row gives the same successful result, it never touches rows, and when
the table already exists the database state is left entirely unchanged. -/
theorem claim_c9_ensure_schema_idempotent (db : DbState) :
    init_orders_shema db = .ok (applySchema db) ∧
    init_orders_shema (applySchema db) = .ok (applySchema db) ∧
    (applySchema db).ordersRows = db.ordersRows ∧
    (∀ t, db.ordersTable = some t → applySchema db = db) ∧
    ((applySchema db).ordersTable = some ordersSchema ∨
      (applySchema db).ordersTable = db.ordersTable) := by
  cases db with
  | mk tbl rows =>
    cases tbl <;>
      simp [init_orders_shema, applySchema]

/-- C9 witness on a concrete database state whose table already exists. -/
theorem claim_c9_witness :
    applySchema ⟨some ordersSchema, []⟩ = ⟨some ordersSchema, []⟩ ∧
    init_orders_shema ⟨some ordersSchema, []⟩ =
      .ok (applySchema ⟨some ordersSchema, []⟩) :=
  ⟨(claim_c9_ensure_schema_idempotent ⟨some ordersSchema, []⟩).2.2.2.1
      ordersSchema rfl,
    (claim_c9_ensure_schema_idempotent ⟨some ordersSchema, []⟩).1⟩

/-- C10: `save_order_to_db` is a single-statement append-only insert: each
successful call appends exactly one row after the existing ones, a second
save with the same `order_uid` simply appends a second row (the statement
has no ON CONFLICT clause and the schema puts no uniqueness on `order_uid`),
and a failed call leaves the rows untouched. -/
theorem claim_c10_append_only_insert (rows : List DbRow) (A B : Order)
    (e : StoreError) (huid : A.order_uid = B.order_uid) :
    save_order_to_db rows A none = .ok (rows ++ [orderRow A]) ∧
    save_order_to_db (rows ++ [orderRow A]) B none =
      .ok (rows ++ [orderRow A, orderRow B]) ∧
    (orderRow A).order_uid = (orderRow B).order_uid ∧
    (rows ++ [orderRow A]).length = rows.length + 1 ∧
    (rows ++ [orderRow A]).take rows.length = rows ∧
    save_order_to_db rows A (some e) = .error e ∧
    ordersInsertStmt.rowTuples = 1 ∧
    ordersInsertStmt.onConflictClause = none ∧
    (ordersColumns.all fun c =>
      !(c.name == "order_uid" && (c.uniqueConstraint || c.primaryKey))) =
        true := by
  refine ⟨rfl, by simp [save_order_to_db], by simp [orderRow, huid], by simp,
    List.take_left rows [orderRow A], rfl, rfl, rfl, by decide⟩

/-- C10 witness: two saves of the same concrete order append two rows. -/
theorem claim_c10_witness :
    save_order_to_db ([] : List DbRow) sampleOrder none =
      .ok ([] ++ [orderRow sampleOrder]) ∧
    save_order_to_db ([] ++ [orderRow sampleOrder]) sampleOrder none =
      .ok ([] ++ [orderRow sampleOrder, orderRow sampleOrder]) :=
  ⟨(claim_c10_append_only_insert [] sampleOrder sampleOrder ⟨"db down"⟩ rfl).1,
    (claim_c10_append_only_insert [] sampleOrder sampleOrder ⟨"db down"⟩
        rfl).2.1⟩

end WbRestOrder
